import Mathlib

/-!
Verification of the competitor_researcher update-extraction and
classification pipeline.  Python string primitives are modelled as
executable functions over `List Char`, and each operation of the
pipeline (`_parse_search_results`, `categorize_news`, `analyze_sentiment`,
`_rule_based_analysis`, `analyze_business_impact`,
`get_action_items_by_priority`, `deduplicate_news`) is translated into a
Lean definition proved against the specified properties.
-/

namespace CompetitorResearcher

/-! ## Python string primitives -/

/-- Does the char list `l` start with the char list `p`?
Models Python `str.startswith` after `String.toList`. -/
def charsStartWith : List Char → List Char → Bool
  | _, [] => true
  | [], _ :: _ => false
  | c :: cs, p :: ps => c == p && charsStartWith cs ps

/-- Does `p` occur as a contiguous segment of `l`?  Models Python `p in l`. -/
def charsContain : List Char → List Char → Bool
  | [], p => p.isEmpty
  | c :: cs, p => charsStartWith (c :: cs) p || charsContain cs p

/-- Python `pat in text` (substring containment). -/
def strContains (text pat : String) : Bool :=
  charsContain text.toList pat.toList

/-- Python `text.startswith(pat)`. -/
def pyStartsWith (text pat : String) : Bool :=
  charsStartWith text.toList pat.toList

/-- Python `str.lower` restricted to ASCII letters. -/
def pyLower (s : String) : String :=
  String.mk (s.toList.map Char.toLower)

/-- Python `str.strip()`: drop whitespace from both ends. -/
def pyStrip (s : String) : String :=
  String.mk (((s.toList.dropWhile Char.isWhitespace).reverse.dropWhile
    Char.isWhitespace).reverse)

/-- Left-to-right, non-overlapping replacement of `pat` by `rep`, models
Python `str.replace` for a non-empty pattern.  The fuel argument (started
at the length of the scanned list, which every step shortens) makes the
recursion structural; the fuel-0 arm is unreachable. -/
def replaceCharsFuel (pat rep : List Char) : Nat → List Char → List Char
  | _, [] => []
  | 0, l => l
  | fuel + 1, c :: cs =>
    if charsStartWith (c :: cs) pat ∧ pat ≠ [] then
      rep ++ replaceCharsFuel pat rep fuel (cs.drop (pat.length - 1))
    else
      c :: replaceCharsFuel pat rep fuel cs

/-- Python `s.replace(pat, rep)` (patterns used by the code are non-empty). -/
def pyReplace (s pat rep : String) : String :=
  String.mk (replaceCharsFuel pat.toList rep.toList s.toList.length s.toList)

/-- Split on every non-overlapping occurrence of the separator, keeping
empty pieces; models Python `str.split(sep)` for non-empty `sep`.  Fuel as
in `replaceCharsFuel`; the fuel-0 arm is unreachable. -/
def splitOnCharsFuel (sep : List Char) : Nat → List Char →
    List Char → List (List Char)
  | _, acc, [] => [acc.reverse]
  | 0, acc, _ => [acc.reverse]
  | fuel + 1, acc, c :: cs =>
    if charsStartWith (c :: cs) sep ∧ sep ≠ [] then
      acc.reverse :: splitOnCharsFuel sep fuel [] (cs.drop (sep.length - 1))
    else
      splitOnCharsFuel sep fuel (c :: acc) cs

/-- Python `s.split(sep)` for a non-empty separator string. -/
def pySplit (s sep : String) : List String :=
  (splitOnCharsFuel sep.toList s.toList.length [] s.toList).map String.mk

/-! ## Classifier (`fetcher.py`: `categorize_news`, `analyze_sentiment`) -/

/-- Product keyword vocabulary from `categorize_news`. -/
def productKeywords : List String :=
  ["product", "feature", "launch", "release", "update"]

/-- Funding keyword vocabulary from `categorize_news`. -/
def fundingKeywords : List String :=
  ["funding", "investment", "raise", "series"]

/-- Acquisition keyword vocabulary from `categorize_news`. -/
def acquisitionKeywords : List String :=
  ["acquisition", "acquire", "merger", "buy"]

/-- Partnership keyword vocabulary from `categorize_news`. -/
def partnershipKeywords : List String :=
  ["partnership", "partner", "collaborate", "alliance"]

/-- Leadership keyword vocabulary from `categorize_news`. -/
def leadershipKeywords : List String :=
  ["ceo", "executive", "leadership", "appoints"]

/-- `NewsFetcher.categorize_news`: first matching keyword set, checked in a
fixed order over the case-folded space-joined concatenation of title and
content, else `general`. -/
def categorize_news (title content : String) : String :=
  let text := pyLower (title ++ " " ++ content)
  if productKeywords.any (fun w => strContains text w) then "product"
  else if fundingKeywords.any (fun w => strContains text w) then "funding"
  else if acquisitionKeywords.any (fun w => strContains text w) then "acquisition"
  else if partnershipKeywords.any (fun w => strContains text w) then "partnership"
  else if leadershipKeywords.any (fun w => strContains text w) then "leadership"
  else "general"

/-- The fixed category precedence order stated by the spec. -/
def categoryPrecedence : List (String × List String) :=
  [("product", productKeywords), ("funding", fundingKeywords),
   ("acquisition", acquisitionKeywords), ("partnership", partnershipKeywords),
   ("leadership", leadershipKeywords)]

/-- First table row whose keyword set matches, else `general`. -/
def firstMatchingCategory (text : String) :
    List (String × List String) → String
  | [] => "general"
  | p :: rest =>
    if p.2.any (fun w => strContains text w) then p.1
    else firstMatchingCategory text rest

/-- Modelled from the spec: categorization is the first matching rule in the
fixed precedence table, defaulting to `general` when no keyword occurs. -/
def categorizeSpec (title content : String) : String :=
  firstMatchingCategory (pyLower (title ++ " " ++ content)) categoryPrecedence

/-- Positive-word vocabulary from `analyze_sentiment`. -/
def positiveWords : List String :=
  ["success", "growth", "profit", "win", "achievement", "innovative",
   "breakthrough", "leading", "best", "excellent", "strong", "gains"]

/-- Negative-word vocabulary from `analyze_sentiment`. -/
def negativeWords : List String :=
  ["loss", "decline", "problem", "issue", "concern", "struggle",
   "fail", "weak", "crisis", "lawsuit", "drop", "falls"]

/-- Number of positive vocabulary words occurring in the case-folded text
(`sum(1 for word in positive_words if word in text)`). -/
def positiveCount (text : String) : Nat :=
  positiveWords.countP (fun w => strContains (pyLower text) w)

/-- Number of negative vocabulary words occurring in the case-folded text. -/
def negativeCount (text : String) : Nat :=
  negativeWords.countP (fun w => strContains (pyLower text) w)

/-- `NewsFetcher.analyze_sentiment`: compare the two vocabulary counts,
ties giving `neutral`. -/
def analyze_sentiment (text : String) : String :=
  if negativeCount text < positiveCount text then "positive"
  else if positiveCount text < negativeCount text then "negative"
  else "neutral"

/-! ## Response parser (`perplexity_fetcher.py`: `_parse_search_results`) -/

/-- One structured news item, mirroring the record dict built by
`_parse_search_results`.  The wall-clock timestamp `datetime.now()` is
threaded in as the `now` argument of the parser. -/
structure NewsItem where
  title : String
  competitor_name : String
  source : String
  content : String
  url : Option String
  published_at : Option String
  fetched_at : String
deriving Repr, DecidableEq

/-- The default record each strategy starts from. -/
def initItem (name now : String) : NewsItem :=
  { title := "", competitor_name := name, source := "Perplexity Search",
    content := "", url := none, published_at := none, fetched_at := now }

/-- Recognized field markers of the delimited strategy. -/
def fieldMarks : List String :=
  ["TITLE:", "SOURCE:", "DATE:", "URL:", "SUMMARY:"]

/-- One iteration of the field-scan loop of strategy 1: dispatch a raw line
to the field it updates. -/
def parseFieldLine (item : NewsItem) (rawLine : String) : NewsItem :=
  let line := pyStrip rawLine
  if pyStartsWith line "TITLE:" then
    { item with title := pyStrip (pyReplace line "TITLE:" "") }
  else if pyStartsWith line "SOURCE:" then
    { item with source := pyStrip (pyReplace line "SOURCE:" "") }
  else if pyStartsWith line "DATE:" then
    { item with published_at := some (pyStrip (pyReplace line "DATE:" "")) }
  else if pyStartsWith line "URL:" then
    let url := pyStrip (pyReplace line "URL:" "")
    if url ≠ "" ∧ pyLower url ≠ "n/a" ∧ pyLower url ≠ "not available" then
      { item with url := some url }
    else item
  else if pyStartsWith line "SUMMARY:" then
    { item with content := pyStrip (pyReplace line "SUMMARY:" "") }
  else if line ≠ "" ∧ fieldMarks.all (fun p => !pyStartsWith line p) then
    if item.content ≠ "" then
      { item with content := item.content ++ " " ++ line }
    else if item.title = "" then
      { item with title := line }
    else item
  else item

/-- Strategy 1 on one `---`-separated segment: fold the field scan over its
lines. -/
def parseSegment (name now seg : String) : NewsItem :=
  (pySplit seg "\n").foldl parseFieldLine (initItem name now)

/-- Strategy 1 (delimited fields): split on `---`, parse each non-blank
segment, and keep only items with a non-empty title. -/
def strategyDelimited (response name now : String) : List NewsItem :=
  (pySplit response "---").filterMap (fun raw =>
    let seg := pyStrip raw
    if seg = "" then none
    else
      let item := parseSegment name now seg
      if item.title ≠ "" then some item else none)

/-- Bullet glyph markers of strategy 2. -/
def bulletMarks : List String := ["- ", "* ", "• "]

/-- Single-digit ordinal markers of strategy 2. -/
def ordinalMarks : List String :=
  ["1.", "2.", "3.", "4.", "5.", "6.", "7.", "8.", "9."]

/-- Does a (stripped) line open a new list item? -/
def isListStart (line : String) : Bool :=
  bulletMarks.any (fun p => pyStartsWith line p) ||
  ordinalMarks.any (fun p => pyStartsWith line p)

/-- Remove the first matching bullet glyph marker, then strip. -/
def stripBulletMark (line : String) : String :=
  if pyStartsWith line "- " then pyStrip (String.mk (line.toList.drop 2))
  else if pyStartsWith line "* " then pyStrip (String.mk (line.toList.drop 2))
  else if pyStartsWith line "• " then pyStrip (String.mk (line.toList.drop 2))
  else line

/-- `re.sub(r'^\d+\.\s*', '', line)`: remove one leading run of digits
followed by a dot and any whitespace; otherwise leave the line unchanged. -/
def stripOrdinalMark (line : String) : String :=
  let cs := line.toList
  let ds := cs.takeWhile Char.isDigit
  if ds = [] then line
  else
    match cs.drop ds.length with
    | '.' :: rest => String.mk (rest.dropWhile Char.isWhitespace)
    | _ => line

/-- Strategy 2 treatment of a continuation line: bare `http` lines become
the url, other lines accumulate into the content. -/
def addContentLine (item : NewsItem) (line : String) : NewsItem :=
  if pyStartsWith line "http" then { item with url := some line }
  else if item.content ≠ "" then
    { item with content := item.content ++ " " ++ line }
  else { item with content := line }

/-- Emit the current item if it exists and carries a non-empty title. -/
def flushItem (acc : List NewsItem) : Option NewsItem → List NewsItem
  | some item => if item.title ≠ "" then acc ++ [item] else acc
  | none => acc

/-- The line loop of strategy 2, carrying the accumulated results and the
optional current item. -/
def strategyListGo (name now : String) (acc : List NewsItem)
    (cur : Option NewsItem) : List String → List NewsItem
  | [] => flushItem acc cur
  | raw :: rest =>
    let line := pyStrip raw
    if line = "" then strategyListGo name now acc cur rest
    else if isListStart line then
      strategyListGo name now (flushItem acc cur)
        (some { initItem name now with
                  title := stripOrdinalMark (stripBulletMark line) }) rest
    else
      match cur with
      | some item =>
        strategyListGo name now acc (some (addContentLine item line)) rest
      | none => strategyListGo name now acc none rest

/-- Strategy 2 (list markers): scan the raw lines of the whole response. -/
def strategyList (response name now : String) : List NewsItem :=
  strategyListGo name now [] none (pySplit response "\n")

/-- Strategy 3: the single synthetic fallback record holding the entire
response as content. -/
def fallbackItem (response name now : String) : NewsItem :=
  { title := "Competitive Intelligence Update: " ++ name,
    competitor_name := name, source := "Perplexity Search",
    content := response, url := none, published_at := some now,
    fetched_at := now }

/-- `_parse_search_results`: try the three strategies in order, first
non-empty result wins, ending in the single synthetic record. -/
def parse_search_results (response name now : String) : List NewsItem :=
  let r1 := strategyDelimited response name now
  if r1 ≠ [] then r1
  else
    let r2 := strategyList response name now
    if r2 ≠ [] then r2
    else [fallbackItem response name now]

/-! ## Parser lemmas -/

/-- Every record kept by strategy 1 carries a non-empty title. -/
theorem strategyDelimited_titles (response name now : String) :
    ∀ r ∈ strategyDelimited response name now, r.title ≠ "" := by
  intro r hr
  simp only [strategyDelimited, List.mem_filterMap] at hr
  obtain ⟨raw, -, hf⟩ := hr
  by_cases h : pyStrip raw = ""
  · rw [if_pos h] at hf
    cases hf
  · rw [if_neg h] at hf
    split at hf
    · next hne =>
      cases hf
      exact hne
    · cases hf

/-- `flushItem` preserves the all-titles-non-empty invariant. -/
theorem flushItem_titles (acc : List NewsItem) (cur : Option NewsItem)
    (h : ∀ r ∈ acc, r.title ≠ "") : ∀ r ∈ flushItem acc cur, r.title ≠ "" := by
  intro r hr
  cases cur with
  | none => exact h r hr
  | some item =>
    dsimp only [flushItem] at hr
    split at hr
    · next hne =>
      rcases List.mem_append.1 hr with h1 | h1
      · exact h r h1
      · rcases List.mem_singleton.1 h1 with rfl
        exact hne
    · exact h r hr

/-- Every record produced by the strategy-2 line loop carries a non-empty
title, provided the records accumulated so far do. -/
theorem strategyListGo_titles (name now : String) :
    ∀ (lines : List String) (acc : List NewsItem) (cur : Option NewsItem),
      (∀ r ∈ acc, r.title ≠ "") →
      ∀ r ∈ strategyListGo name now acc cur lines, r.title ≠ "" := by
  intro lines
  induction lines with
  | nil =>
    intro acc cur h r hr
    exact flushItem_titles acc cur h r hr
  | cons raw rest ih =>
    intro acc cur h r hr
    rw [strategyListGo.eq_def] at hr
    dsimp only at hr
    by_cases h1 : pyStrip raw = ""
    · rw [if_pos h1] at hr
      exact ih acc cur h r hr
    · rw [if_neg h1] at hr
      by_cases h2 : isListStart (pyStrip raw) = true
      · rw [if_pos h2] at hr
        exact ih _ _ (flushItem_titles acc cur h) r hr
      · rw [if_neg h2] at hr
        cases cur with
        | some item => exact ih acc _ h r hr
        | none => exact ih acc none h r hr

/-- The synthetic fallback record has a non-empty title. -/
theorem fallbackItem_title_ne (response name now : String) :
    (fallbackItem response name now).title ≠ "" := by
  intro h
  have h2 : ("Competitive Intelligence Update: " ++ name : String) = "" := h
  have h3 := congrArg String.data h2
  rw [String.data_append] at h3
  exact absurd (List.append_eq_nil.mp h3).1 (by decide)

/-- C1 (amended): for every response text, including the empty and
whitespace-only ones, `_parse_search_results` returns at least one record,
and every returned record has a non-empty title.  (The parser is a total
function, so it never raises.) -/
theorem parse_always_yields_titled_records (response name now : String) :
    1 ≤ (parse_search_results response name now).length ∧
    (parse_search_results response name now).all
      (fun r => r.title != "") = true := by
  constructor
  · unfold parse_search_results
    dsimp only
    split
    · next h => exact List.length_pos.mpr h
    · split
      · next h => exact List.length_pos.mpr h
      · simp
  · rw [List.all_eq_true]
    intro r hr
    rw [bne_iff_ne]
    unfold parse_search_results at hr
    dsimp only at hr
    split at hr
    · exact strategyDelimited_titles response name now r hr
    · split at hr
      · exact strategyListGo_titles name now _ [] none (by simp) r hr
      · rcases List.mem_singleton.1 hr with rfl
        exact fallbackItem_title_ne response name now

/-- C1 (counterexample): on the empty response text the parser returns one
synthetic record, not the empty sequence claimed by the spec. -/
theorem parse_empty_input_yields_one_record :
    parse_search_results "" "Acme" "2025-01-01T00:00:00" ≠ [] ∧
    (parse_search_results "" "Acme" "2025-01-01T00:00:00").length = 1 := by
  decide

/-- C9 (amended): when strategies 1 and 2 both yield no records, the parser
returns exactly one synthetic record whose content is the whole input and
whose title is "Competitive Intelligence Update: " followed by the
competitor name. -/
theorem fallback_single_blob_record (response name now : String)
    (h1 : strategyDelimited response name now = [])
    (h2 : strategyList response name now = []) :
    parse_search_results response name now =
      [fallbackItem response name now] ∧
    (fallbackItem response name now).title =
      "Competitive Intelligence Update: " ++ name ∧
    (fallbackItem response name now).content = response := by
  refine ⟨?_, rfl, rfl⟩
  unfold parse_search_results
  simp [h1, h2]

/-- C9 (witness): the input "SOURCE: x" defeats strategies 1 and 2, so the
parser returns the single synthetic record. -/
theorem fallback_single_blob_record_witness :
    parse_search_results "SOURCE: x" "Acme" "T" =
      [fallbackItem "SOURCE: x" "Acme" "T"] ∧
    (fallbackItem "SOURCE: x" "Acme" "T").title =
      "Competitive Intelligence Update: " ++ "Acme" ∧
    (fallbackItem "SOURCE: x" "Acme" "T").content = "SOURCE: x" :=
  fallback_single_blob_record "SOURCE: x" "Acme" "T" (by decide) (by decide)

/-- C9 (counterexample): the synthetic record title produced by the code is
"Competitive Intelligence Update: Acme", not the placeholder
"Competitive update: Acme" stated by the spec. -/
theorem fallback_title_literal_differs :
    (parse_search_results "SOURCE: x" "Acme" "T").map NewsItem.title =
      ["Competitive Intelligence Update: Acme"] ∧
    ("Competitive Intelligence Update: Acme" : String) ≠
      "Competitive update: Acme" := by
  decide

/-- C5 (amended): in the delimited strategy a URL: candidate is accepted iff
it is non-empty and not a case-insensitive placeholder token, with no scheme
check; in the list-marker strategy a continuation line is assigned to the
url field iff it starts with "http". -/
theorem url_acceptance_rules (item cur : NewsItem) (rawLine contLine : String)
    (h1 : pyStartsWith (pyStrip rawLine) "TITLE:" = false)
    (h2 : pyStartsWith (pyStrip rawLine) "SOURCE:" = false)
    (h3 : pyStartsWith (pyStrip rawLine) "DATE:" = false)
    (h4 : pyStartsWith (pyStrip rawLine) "URL:" = true) :
    (parseFieldLine item rawLine).url =
      (if pyStrip (pyReplace (pyStrip rawLine) "URL:" "") ≠ "" ∧
          pyLower (pyStrip (pyReplace (pyStrip rawLine) "URL:" "")) ≠ "n/a" ∧
          pyLower (pyStrip (pyReplace (pyStrip rawLine) "URL:" "")) ≠
            "not available"
        then some (pyStrip (pyReplace (pyStrip rawLine) "URL:" ""))
        else item.url) ∧
    (addContentLine cur contLine).url =
      (if pyStartsWith contLine "http" = true then some contLine
       else cur.url) := by
  constructor
  · unfold parseFieldLine
    dsimp only
    rw [if_neg (by simp [h1]), if_neg (by simp [h2]), if_neg (by simp [h3]),
      if_pos h4]
    split <;> rfl
  · unfold addContentLine
    split
    · rfl
    · split <;> rfl

/-- C5 (witness): the rules applied at the line "URL: example.com" and the
continuation line "https://a.io". -/
theorem url_acceptance_rules_witness :
    (parseFieldLine (initItem "Acme" "T") "URL: example.com").url =
      (if pyStrip (pyReplace (pyStrip "URL: example.com") "URL:" "") ≠ "" ∧
          pyLower (pyStrip (pyReplace (pyStrip "URL: example.com") "URL:" ""))
            ≠ "n/a" ∧
          pyLower (pyStrip (pyReplace (pyStrip "URL: example.com") "URL:" ""))
            ≠ "not available"
        then some (pyStrip (pyReplace (pyStrip "URL: example.com") "URL:" ""))
        else (initItem "Acme" "T").url) ∧
    (addContentLine (initItem "Acme" "T") "https://a.io").url =
      (if pyStartsWith "https://a.io" "http" = true then some "https://a.io"
       else (initItem "Acme" "T").url) :=
  url_acceptance_rules (initItem "Acme" "T") (initItem "Acme" "T")
    "URL: example.com" "https://a.io" (by decide) (by decide) (by decide)
    (by decide)

/-- C5 (counterexample): the delimited strategy accepts "example.com" as a
url although it begins with no recognized URL scheme. -/
theorem url_accepted_without_scheme :
    (parse_search_results "TITLE: X\nURL: example.com" "Acme" "T").map
      NewsItem.url = [some "example.com"] ∧
    pyStartsWith "example.com" "http" = false ∧
    pyStartsWith "example.com" "ftp" = false ∧
    strContains "example.com" "://" = false := by
  decide

/-! ## Classifier theorems -/

/-- C7: `categorize_news` is a pure total function equal to the first
matching category in the fixed precedence order product, funding,
acquisition, partnership, leadership over the case-folded concatenation of
title and content, with `general` when no keyword of any set occurs. -/
theorem categorize_news_first_match_precedence (title content : String) :
    categorize_news title content = categorizeSpec title content := rfl

/-- C8: `analyze_sentiment` compares the number of positive vocabulary
words and negative vocabulary words occurring in the case-folded text:
`positive` iff the positive count exceeds the negative count, `negative`
iff the reverse, `neutral` exactly on ties. -/
theorem analyze_sentiment_count_trichotomy (text : String) :
    (analyze_sentiment text = "positive" ↔
      negativeCount text < positiveCount text) ∧
    (analyze_sentiment text = "negative" ↔
      positiveCount text < negativeCount text) ∧
    (analyze_sentiment text = "neutral" ↔
      positiveCount text = negativeCount text) := by
  unfold analyze_sentiment
  by_cases h1 : negativeCount text < positiveCount text
  · rw [if_pos h1]
    refine ⟨⟨fun _ => h1, fun _ => rfl⟩, ?_, ?_⟩
    · exact ⟨fun hc => absurd hc (by decide), fun hc => by omega⟩
    · exact ⟨fun hc => absurd hc (by decide), fun hc => by omega⟩
  · rw [if_neg h1]
    by_cases h2 : positiveCount text < negativeCount text
    · rw [if_pos h2]
      refine ⟨?_, ⟨fun _ => h2, fun _ => rfl⟩, ?_⟩
      · exact ⟨fun hc => absurd hc (by decide), fun hc => by omega⟩
      · exact ⟨fun hc => absurd hc (by decide), fun hc => by omega⟩
    · rw [if_neg h2]
      refine ⟨?_, ?_, ⟨fun _ => by omega, fun _ => rfl⟩⟩
      · exact ⟨fun hc => absurd hc (by decide), fun hc => by omega⟩
      · exact ⟨fun hc => absurd hc (by decide), fun hc => by omega⟩

/-! ## Deduplicator -/

/-- Split into maximal whitespace-free words, models Python `str.split()`
with no argument.  Fuel as in `replaceCharsFuel`; the fuel-0 arm is
unreachable. -/
def splitWhitespaceFuel : Nat → List Char → List (List Char)
  | _, [] => []
  | 0, _ => []
  | fuel + 1, c :: cs =>
    if c.isWhitespace then splitWhitespaceFuel fuel cs
    else (c :: cs.takeWhile (fun d => !d.isWhitespace)) ::
      splitWhitespaceFuel fuel (cs.dropWhile (fun d => !d.isWhitespace))

/-- Modelled from the spec: normalized title, case-folded and
whitespace-collapsed (§4.2). -/
def normalizeTitle (t : String) : String :=
  String.intercalate " "
    ((splitWhitespaceFuel (pyLower t).toList.length (pyLower t).toList).map
      String.mk)

/-- Modelled from the spec: two records are duplicates iff their normalized
titles are identical or both carry non-empty, equal URLs (§4.2). -/
def isDuplicate (a b : NewsItem) : Bool :=
  normalizeTitle a.title == normalizeTitle b.title ||
  (match a.url, b.url with
   | some u, some v => u != "" && v != "" && u == v
   | _, _ => false)

/-- The scan of the deduplicator: keep a record iff it duplicates no
already-kept record. -/
def dedupGo (kept : List NewsItem) : List NewsItem → List NewsItem
  | [] => []
  | r :: rs =>
    if kept.any (fun k => isDuplicate r k) then dedupGo kept rs
    else r :: dedupGo (kept ++ [r]) rs

/-- Modelled from the spec: `deduplicate_news` is called on the fetcher in
`app.py` but defined nowhere in the repository sources; per §4.2 it is the
order-preserving, first-occurrence-wins removal of duplicate records. -/
def deduplicate_news (records : List NewsItem) : List NewsItem :=
  dedupGo [] records

/-- The deduplicator output is a sublist of its input. -/
theorem dedupGo_sublist (l : List NewsItem) :
    ∀ kept, (dedupGo kept l).Sublist l := by
  induction l with
  | nil => intro kept; simp [dedupGo]
  | cons r rs ih =>
    intro kept
    rw [dedupGo]
    split
    · exact List.Sublist.cons r (ih kept)
    · exact List.Sublist.cons₂ r (ih (kept ++ [r]))

/-- Every record kept by the scan duplicates no record of its `kept`
argument. -/
theorem dedupGo_mem_not_dup (l : List NewsItem) :
    ∀ kept, ∀ b ∈ dedupGo kept l, ∀ k ∈ kept, isDuplicate b k = false := by
  induction l with
  | nil => intro kept b hb; simp [dedupGo] at hb
  | cons r rs ih =>
    intro kept b hb k hk
    rw [dedupGo] at hb
    split at hb
    · exact ih kept b hb k hk
    · next hany =>
      rcases List.mem_cons.1 hb with rfl | hb2
      · cases hval : isDuplicate b k
        · rfl
        · exact absurd (List.any_eq_true.mpr ⟨k, hk, hval⟩) (by simpa using hany)
      · exact ih (kept ++ [r]) b hb2 k (List.mem_append_left _ hk)

/-- The deduplicator output is pairwise duplicate-free. -/
theorem dedupGo_pairwise (l : List NewsItem) :
    ∀ kept, (dedupGo kept l).Pairwise (fun a b => isDuplicate b a = false) := by
  induction l with
  | nil => intro kept; simp [dedupGo]
  | cons r rs ih =>
    intro kept
    rw [dedupGo]
    split
    · exact ih kept
    · refine List.Pairwise.cons ?_ (ih (kept ++ [r]))
      intro b hb
      exact dedupGo_mem_not_dup rs (kept ++ [r]) b hb r (by simp)

/-- On a pairwise duplicate-free list whose members duplicate nothing in
`kept`, the scan is the identity. -/
theorem dedupGo_of_clean (l : List NewsItem) :
    ∀ kept, (∀ x ∈ l, ∀ k ∈ kept, isDuplicate x k = false) →
      l.Pairwise (fun a b => isDuplicate b a = false) →
      dedupGo kept l = l := by
  induction l with
  | nil => intro kept _ _; rfl
  | cons r rs ih =>
    intro kept hkept hpw
    have hany : kept.any (fun k => isDuplicate r k) = false := by
      cases hv : kept.any (fun k => isDuplicate r k)
      · rfl
      · obtain ⟨k, hk, hdup⟩ := List.any_eq_true.mp hv
        exact absurd hdup (by simp [hkept r (by simp) k hk])
    rw [dedupGo, if_neg (by simp [hany])]
    congr 1
    apply ih (kept ++ [r])
    · intro x hx k hk
      rcases List.mem_append.1 hk with hk1 | hk1
      · exact hkept x (List.mem_cons_of_mem r hx) k hk1
      · rcases List.mem_singleton.1 hk1 with rfl
        exact (List.pairwise_cons.1 hpw).1 x hx
    · exact (List.pairwise_cons.1 hpw).2

/-- C4: deduplication is idempotent, keeps a sublist of its input in
first-seen order, never increases the record count, the duplicate relation
is exactly title-normalization equality or shared non-empty URL, and the
two case/whitespace variant records of the spec example collapse to one. -/
theorem deduplicate_idempotent_order_preserving (l : List NewsItem)
    (a b : NewsItem) :
    deduplicate_news (deduplicate_news l) = deduplicate_news l ∧
    (deduplicate_news l).Sublist l ∧
    (deduplicate_news l).length ≤ l.length ∧
    (isDuplicate a b = true ↔
      (normalizeTitle a.title = normalizeTitle b.title ∨
        ∃ u v, a.url = some u ∧ b.url = some v ∧ u ≠ "" ∧ v ≠ "" ∧ u = v)) ∧
    deduplicate_news
      [{ title := "Acme Launches API", competitor_name := "Acme",
         source := "s", content := "", url := none, published_at := none,
         fetched_at := "T" },
       { title := "acme launches api  ", competitor_name := "Acme",
         source := "s", content := "", url := none, published_at := none,
         fetched_at := "T" }] =
      [{ title := "Acme Launches API", competitor_name := "Acme",
         source := "s", content := "", url := none, published_at := none,
         fetched_at := "T" }] := by
  refine ⟨?_, dedupGo_sublist l [], (dedupGo_sublist l []).length_le, ?_, by decide⟩
  · exact dedupGo_of_clean _ [] (by simp) (dedupGo_pairwise l [])
  · unfold isDuplicate
    cases ha : a.url <;> cases hb : b.url <;>
      simp [Bool.or_eq_true, beq_iff_eq, Bool.and_eq_true, bne_iff_ne]
    all_goals tauto

/-! ## Business impact analyzer (`business_analyzer.py`) -/

/-- One action item dict; `priority` is optional because generative output
may omit it. -/
structure ActionItem where
  priority : Option String
  action : String
  department : String
  timeframe : String
deriving Repr, DecidableEq

/-- The analysis dict returned by `analyze_business_impact`.  Scalar fields
are `Option String` because the dict of a generative response may lack
them; list fields default to the empty list. -/
structure BAnalysis where
  competitor : String
  threat_level : Option String
  opportunity_level : Option String
  overall_impact : Option String
  executive_summary : Option String
  key_findings : List String
  threats : List String
  opportunities : List String
  strategic_recommendations : List String
  action_items : List ActionItem
  market_implications : List String
  analyzed_at : Option String
deriving Repr, DecidableEq

/-- One update record as read by the rule engine: `update.get('category',
'general')` and `update.get('sentiment', 'neutral')`. -/
structure UpdateInfo where
  category : Option String
  sentiment : Option String
deriving Repr, DecidableEq

/-- The tally `categories[cat]` of `_rule_based_analysis` (with default 0
for an absent key). -/
def categoryCount (updates : List UpdateInfo) (cat : String) : Nat :=
  updates.countP (fun u => u.category.getD "general" == cat)

/-- The tally `sentiments[s]` of `_rule_based_analysis`. -/
def sentimentCount (updates : List UpdateInfo) (s : String) : Nat :=
  updates.countP (fun u => u.sentiment.getD "neutral" == s)

/-- Threat-level cascade of `_rule_based_analysis`. -/
def ruleThreatLevel (updates : List UpdateInfo) : String :=
  if 2 ≤ categoryCount updates "funding" ∨
      1 ≤ categoryCount updates "acquisition" then "high"
  else if 3 ≤ categoryCount updates "product" then "medium"
  else if 10 ≤ updates.length then "medium"
  else "low"

/-- Opportunity-level escalation of `_rule_based_analysis`: starts low,
becomes medium on dominant negative sentiment or two leadership updates. -/
def ruleOpportunityLevel (updates : List UpdateInfo) : String :=
  if 2 ≤ categoryCount updates "leadership" then "medium"
  else if sentimentCount updates "positive" < sentimentCount updates "negative"
    then "medium"
  else "low"

/-- Templated key findings of `_rule_based_analysis`, in generation order. -/
def ruleKeyFindings (name : String) (updates : List UpdateInfo) :
    List String :=
  (if 0 < categoryCount updates "product" then
    [name ++ " has " ++ toString (categoryCount updates "product") ++
      " product-related updates"] else []) ++
  (if 0 < categoryCount updates "funding" then
    ["Funding activity detected: " ++
      toString (categoryCount updates "funding") ++ " updates"] else []) ++
  (if 0 < categoryCount updates "partnership" then
    [toString (categoryCount updates "partnership") ++
      " partnership announcements"] else []) ++
  (if sentimentCount updates "positive" < sentimentCount updates "negative"
    then ["Negative sentiment detected in recent news"] else [])

/-- Templated threats of `_rule_based_analysis`. -/
def ruleThreats (updates : List UpdateInfo) : List String :=
  (if 0 < categoryCount updates "product" then
    ["Active product development may lead to competitive features"]
   else []) ++
  (if 0 < categoryCount updates "funding" then
    ["New funding provides resources for aggressive growth"] else [])

/-- Templated opportunities of `_rule_based_analysis`. -/
def ruleOpportunities (updates : List UpdateInfo) : List String :=
  (if 0 < categoryCount updates "partnership" then
    ["Potential partnership gaps in the market"] else []) ++
  (if sentimentCount updates "positive" < sentimentCount updates "negative"
    then ["Market dissatisfaction could be an opportunity"] else [])

/-- Templated strategic recommendations of `_rule_based_analysis`. -/
def ruleRecommendations (name : String) (updates : List UpdateInfo) :
    List String :=
  (if ruleThreatLevel updates = "high" ∨ ruleThreatLevel updates = "critical"
    then ["Monitor " ++ name ++ " closely and review competitive strategy"]
    else []) ++
  (if 0 < categoryCount updates "product" then
    ["Analyze their product changes for feature gaps and opportunities"]
   else []) ++
  (if ruleOpportunityLevel updates = "medium" ∨
      ruleOpportunityLevel updates = "high" then
    ["Capitalize on competitor weaknesses with targeted marketing"] else [])

/-- Templated action items of `_rule_based_analysis`. -/
def ruleActionItems (name : String) (updates : List UpdateInfo) :
    List ActionItem :=
  (if ruleThreatLevel updates = "high" ∨ ruleThreatLevel updates = "critical"
    then [{ priority := some "high",
            action := "Schedule competitive strategy review meeting about "
              ++ name,
            department := "Product & Strategy", timeframe := "This week" }]
    else []) ++
  (if 0 < categoryCount updates "product" then
    [{ priority := some "medium",
       action := "Product team to review competitor feature releases",
       department := "Product", timeframe := "Within 2 weeks" }] else []) ++
  (if ruleOpportunityLevel updates = "medium" ∨
      ruleOpportunityLevel updates = "high" then
    [{ priority := some "medium",
       action := "Marketing to develop competitive positioning campaign",
       department := "Marketing", timeframe := "This month" }] else [])

/-- Templated market implications of `_rule_based_analysis`. -/
def ruleMarketImplications (updates : List UpdateInfo) : List String :=
  (if 0 < categoryCount updates "funding" then
    ["Increased investor interest in this market segment"] else []) ++
  (if 3 ≤ categoryCount updates "product" then
    ["Rapid innovation cycle in the industry"] else [])

/-- Python `x if x else [d]`: an empty list is replaced by the default. -/
def orDefault (l : List String) (d : String) : List String :=
  if l = [] then [d] else l

/-- `_rule_based_analysis`: the deterministic fallback analysis.  The
timestamp `datetime.now().isoformat()` is threaded in as `now`. -/
def rule_based_analysis (name now : String) (updates : List UpdateInfo) :
    BAnalysis :=
  { competitor := name,
    threat_level := some (ruleThreatLevel updates),
    opportunity_level := some (ruleOpportunityLevel updates),
    overall_impact := some
      (if ruleThreatLevel updates = "high" then "significant"
       else if ruleThreatLevel updates = "medium" then "moderate"
       else "minimal"),
    executive_summary := some
      ("Analysis of " ++ toString updates.length ++ " recent updates from "
        ++ name ++ ". Threat level: " ++ ruleThreatLevel updates ++ ". "
        ++ toString (ruleThreats updates).length ++ " threats and "
        ++ toString (ruleOpportunities updates).length
        ++ " opportunities identified."),
    key_findings :=
      orDefault (ruleKeyFindings name updates) "Limited recent activity",
    threats := orDefault (ruleThreats updates) "No immediate threats identified",
    opportunities :=
      orDefault (ruleOpportunities updates) "No clear opportunities identified",
    strategic_recommendations :=
      orDefault (ruleRecommendations name updates) "Continue monitoring",
    action_items := ruleActionItems name updates,
    market_implications := orDefault (ruleMarketImplications updates)
      "No significant market shifts detected",
    analyzed_at := some now }

/-- The field set a generative response may carry after `json.loads`
succeeds on a JSON object; absent keys are `none` / `[]`. -/
structure AiDict where
  threat_level : Option String
  opportunity_level : Option String
  overall_impact : Option String
  executive_summary : Option String
  key_findings : List String
  threats : List String
  opportunities : List String
  strategic_recommendations : List String
  action_items : List ActionItem
  market_implications : List String
deriving Repr, DecidableEq

/-- `_ai_business_analysis`.  `decoded` is the outcome of the try block
around the provider call and `json.loads`: `none` models any raised and
caught exception (provider error, non-JSON body, non-object JSON), `some d`
a successfully decoded JSON object.  On `none` the code falls back to
`_rule_based_analysis`; on `some d` it returns the decoded dict with
`competitor` and `analyzed_at` added. -/
def ai_business_analysis (name now : String) (updates : List UpdateInfo)
    (decoded : Option AiDict) : BAnalysis :=
  match decoded with
  | none => rule_based_analysis name now updates
  | some d =>
    { competitor := name,
      threat_level := d.threat_level,
      opportunity_level := d.opportunity_level,
      overall_impact := d.overall_impact,
      executive_summary := d.executive_summary,
      key_findings := d.key_findings,
      threats := d.threats,
      opportunities := d.opportunities,
      strategic_recommendations := d.strategic_recommendations,
      action_items := d.action_items,
      market_implications := d.market_implications,
      analyzed_at := some now }

/-- The fixed dict `analyze_business_impact` returns for an empty update
batch (it has no `executive_summary`, `threats`, `opportunities` or
`analyzed_at` keys). -/
def emptyBatchAnalysis (name : String) : BAnalysis :=
  { competitor := name,
    threat_level := some "low",
    opportunity_level := some "low",
    overall_impact := some "minimal",
    executive_summary := none,
    key_findings := ["No recent activity detected"],
    threats := [],
    opportunities := [],
    strategic_recommendations := [],
    action_items := [],
    market_implications := [],
    analyzed_at := none }

/-- `analyze_business_impact`.  `ai = none` models an analyzer without a
configured client (rule-based path); `ai = some decoded` models the
generative path with `decoded` the outcome of its try block as in
`ai_business_analysis`. -/
def analyze_business_impact (name now : String) (updates : List UpdateInfo)
    (ai : Option (Option AiDict)) : BAnalysis :=
  if updates = [] then emptyBatchAnalysis name
  else
    match ai with
    | some decoded => ai_business_analysis name now updates decoded
    | none => rule_based_analysis name now updates

/-- C6: on the empty update batch, `analyze_business_impact` returns the
fixed assessment with threat low, opportunity low, impact minimal, and
exactly one key finding stating no recent activity, whatever the AI
configuration, and never errors (the function is total). -/
theorem analyze_business_impact_empty_batch (name now : String)
    (ai : Option (Option AiDict)) :
    analyze_business_impact name now [] ai = emptyBatchAnalysis name ∧
    (emptyBatchAnalysis name).threat_level = some "low" ∧
    (emptyBatchAnalysis name).opportunity_level = some "low" ∧
    (emptyBatchAnalysis name).overall_impact = some "minimal" ∧
    (emptyBatchAnalysis name).key_findings = ["No recent activity detected"] ∧
    (emptyBatchAnalysis name).key_findings.length = 1 := by
  refine ⟨?_, rfl, rfl, rfl, rfl, rfl⟩
  unfold analyze_business_impact
  rw [if_pos rfl]

/-- C2 (amended): when the generative try block fails (provider error or a
body `json.loads` cannot decode), `analyze_business_impact` on a non-empty
batch returns exactly the rule-based result; but a decoded JSON object
missing required keys is returned as the analysis (threat_level stays
absent) rather than being replaced by the rule-based result. -/
theorem ai_parse_failure_falls_back (name now : String)
    (updates : List UpdateInfo) (h : updates ≠ []) :
    analyze_business_impact name now updates (some none) =
      rule_based_analysis name now updates ∧
    (analyze_business_impact name now updates
        (some (some ⟨none, none, none, none, [], [], [], [], [],
          []⟩))).threat_level = none := by
  simp only [analyze_business_impact, if_neg h]
  exact ⟨rfl, rfl⟩

/-- C2 (witness): the fallback equality and the missing-key passthrough at
a concrete one-record batch. -/
theorem ai_parse_failure_falls_back_witness :
    analyze_business_impact "Acme" "T" [⟨some "general", some "neutral"⟩]
        (some none) =
      rule_based_analysis "Acme" "T" [⟨some "general", some "neutral"⟩] ∧
    (analyze_business_impact "Acme" "T" [⟨some "general", some "neutral"⟩]
        (some (some ⟨none, none, none, none, [], [], [], [], [],
          []⟩))).threat_level = none :=
  ai_parse_failure_falls_back "Acme" "T" [⟨some "general", some "neutral"⟩]
    (by decide)

/-- C2 (counterexample): a generative response that decodes as the empty
JSON object (missing every required key) is not downgraded to the
rule-based result. -/
theorem ai_missing_keys_not_downgraded :
    analyze_business_impact "Acme" "T" [⟨some "general", some "neutral"⟩]
        (some (some ⟨none, none, none, none, [], [], [], [], [], []⟩)) ≠
      rule_based_analysis "Acme" "T" [⟨some "general", some "neutral"⟩] := by
  decide

/-- C3: the deterministic rule engine sets threat_level high iff the
funding count is at least 2 or the acquisition count is at least 1,
else medium iff the product count is at least 3 or the batch has at least
10 records, else low, and maps overall_impact significant/moderate/minimal
from high/medium/low exactly. -/
theorem rule_threat_and_impact_levels (name now : String)
    (updates : List UpdateInfo) (_h : updates ≠ []) :
    ((rule_based_analysis name now updates).threat_level = some "high" ↔
      2 ≤ categoryCount updates "funding" ∨
        1 ≤ categoryCount updates "acquisition") ∧
    ((rule_based_analysis name now updates).threat_level = some "medium" ↔
      ¬(2 ≤ categoryCount updates "funding" ∨
          1 ≤ categoryCount updates "acquisition") ∧
        (3 ≤ categoryCount updates "product" ∨ 10 ≤ updates.length)) ∧
    ((rule_based_analysis name now updates).threat_level = some "low" ↔
      ¬(2 ≤ categoryCount updates "funding" ∨
          1 ≤ categoryCount updates "acquisition") ∧
        ¬(3 ≤ categoryCount updates "product" ∨ 10 ≤ updates.length)) ∧
    ((rule_based_analysis name now updates).overall_impact =
        some "significant" ↔
      (rule_based_analysis name now updates).threat_level = some "high") ∧
    ((rule_based_analysis name now updates).overall_impact =
        some "moderate" ↔
      (rule_based_analysis name now updates).threat_level = some "medium") ∧
    ((rule_based_analysis name now updates).overall_impact =
        some "minimal" ↔
      (rule_based_analysis name now updates).threat_level = some "low") := by
  have ht : (rule_based_analysis name now updates).threat_level =
      some (ruleThreatLevel updates) := rfl
  have hi : (rule_based_analysis name now updates).overall_impact =
      some (if ruleThreatLevel updates = "high" then "significant"
        else if ruleThreatLevel updates = "medium" then "moderate"
        else "minimal") := rfl
  rw [ht, hi]
  by_cases hH : 2 ≤ categoryCount updates "funding" ∨
      1 ≤ categoryCount updates "acquisition"
  · simp [ruleThreatLevel, hH]
  · by_cases hM : 3 ≤ categoryCount updates "product"
    · simp [ruleThreatLevel, hH, hM]
    · by_cases hL : 10 ≤ updates.length
      · simp [ruleThreatLevel, hH, hM, hL]
      · simp [ruleThreatLevel, hH, hM, hL]

/-- C3 (witness): a batch of 3 records of which 2 are funding-category
yields threat_level high. -/
theorem rule_threat_and_impact_levels_witness :
    (rule_based_analysis "Acme" "T"
      [⟨some "funding", none⟩, ⟨some "funding", none⟩,
       ⟨some "general", none⟩]).threat_level = some "high" :=
  ((rule_threat_and_impact_levels "Acme" "T"
    [⟨some "funding", none⟩, ⟨some "funding", none⟩, ⟨some "general", none⟩]
    (by decide)).1).mpr (by decide)

/-! ## Action-item bucketing (`get_action_items_by_priority`) -/

/-- An action item copy tagged with the competitor of its originating
analysis (`item_copy['competitor'] = analysis['competitor']`). -/
structure TaggedItem where
  item : ActionItem
  competitor : String
deriving Repr, DecidableEq

/-- The three priority buckets of `get_action_items_by_priority`. -/
structure Buckets where
  high : List TaggedItem
  medium : List TaggedItem
  low : List TaggedItem
deriving Repr, DecidableEq

/-- `item.get('priority', 'low')`. -/
def effPriority (it : ActionItem) : String :=
  it.priority.getD "low"

/-- Is the effective priority one of the three bucket keys?  Any other
value makes `action_items[priority]` raise a KeyError. -/
def validPriorityB (it : ActionItem) : Bool :=
  effPriority it == "high" || effPriority it == "medium" ||
    effPriority it == "low"

/-- Append one tagged item to the bucket named by its effective priority;
an unknown priority is the KeyError, modelled as `Except.error`. -/
def bucketAdd (comp : String) (b : Buckets) (it : ActionItem) :
    Except String Buckets :=
  if effPriority it = "high" then
    .ok { b with high := b.high ++ [⟨it, comp⟩] }
  else if effPriority it = "medium" then
    .ok { b with medium := b.medium ++ [⟨it, comp⟩] }
  else if effPriority it = "low" then
    .ok { b with low := b.low ++ [⟨it, comp⟩] }
  else .error (effPriority it)

/-- The inner loop over one analysis's action items. -/
def bucketItems (comp : String) : Buckets → List ActionItem →
    Except String Buckets
  | b, [] => .ok b
  | b, it :: rest =>
    match bucketAdd comp b it with
    | .ok b2 => bucketItems comp b2 rest
    | .error e => .error e

/-- The outer loop over the analyses. -/
def bucketAnalyses : Buckets → List BAnalysis → Except String Buckets
  | b, [] => .ok b
  | b, a :: rest =>
    match bucketItems a.competitor b a.action_items with
    | .ok b2 => bucketAnalyses b2 rest
    | .error e => .error e

/-- `get_action_items_by_priority`, starting from the dict
`{'high': [], 'medium': [], 'low': []}`. -/
def get_action_items_by_priority (analyses : List BAnalysis) :
    Except String Buckets :=
  bucketAnalyses ⟨[], [], []⟩ analyses

/-- All action items of all analyses, flattened in input order and tagged
with their originating competitor. -/
def taggedFlatten (analyses : List BAnalysis) : List TaggedItem :=
  analyses.flatMap (fun a => a.action_items.map (fun it => ⟨it, a.competitor⟩))

/-- Filtering a tagged copy of a list is the tagged copy of the filtered
list. -/
theorem tagged_filter (comp : String) (p : ActionItem → Bool)
    (items : List ActionItem) :
    (items.map (fun it => (⟨it, comp⟩ : TaggedItem))).filter
        (fun t => p t.item) =
      (items.filter p).map (fun it => ⟨it, comp⟩) := by
  induction items with
  | nil => rfl
  | cons it rest ih =>
    rw [List.map_cons, List.filter_cons, List.filter_cons]
    cases hp : p it
    · simpa [hp] using ih
    · simpa [hp] using ih

/-- `bucketAdd` on a known-high item. -/
theorem bucketAdd_high (comp : String) (b : Buckets) (it : ActionItem)
    (h : effPriority it = "high") :
    bucketAdd comp b it = .ok { b with high := b.high ++ [⟨it, comp⟩] } := by
  simp [bucketAdd, h]

/-- `bucketAdd` on a known-medium item. -/
theorem bucketAdd_medium (comp : String) (b : Buckets) (it : ActionItem)
    (h : effPriority it = "medium") :
    bucketAdd comp b it = .ok { b with medium := b.medium ++ [⟨it, comp⟩] } := by
  simp [bucketAdd, h]

/-- `bucketAdd` on a known-low item. -/
theorem bucketAdd_low (comp : String) (b : Buckets) (it : ActionItem)
    (h : effPriority it = "low") :
    bucketAdd comp b it = .ok { b with low := b.low ++ [⟨it, comp⟩] } := by
  simp [bucketAdd, h]

/-- The inner loop, when every priority is valid, appends each item to the
bucket of its effective priority, in order. -/
theorem bucketItems_ok (comp : String) (items : List ActionItem) :
    ∀ b, items.all validPriorityB = true →
      bucketItems comp b items = .ok
        { high := b.high ++ (items.filter
            (fun it => effPriority it == "high")).map (fun it => ⟨it, comp⟩),
          medium := b.medium ++ (items.filter
            (fun it => effPriority it == "medium")).map (fun it => ⟨it, comp⟩),
          low := b.low ++ (items.filter
            (fun it => effPriority it == "low")).map (fun it => ⟨it, comp⟩) } := by
  induction items with
  | nil => intro b _; simp [bucketItems]
  | cons it rest ih =>
    intro b hall
    simp only [List.all_cons, Bool.and_eq_true] at hall
    obtain ⟨h1, h2⟩ := hall
    have h3 : (effPriority it = "high" ∨ effPriority it = "medium") ∨
        effPriority it = "low" := by
      simpa [validPriorityB, Bool.or_eq_true, beq_iff_eq] using h1
    rcases h3 with (h | h) | h
    · rw [bucketItems, bucketAdd_high comp b it h]
      dsimp only
      rw [ih _ h2]
      simp [List.filter_cons, h, List.append_assoc]
    · rw [bucketItems, bucketAdd_medium comp b it h]
      dsimp only
      rw [ih _ h2]
      simp [List.filter_cons, h, List.append_assoc]
    · rw [bucketItems, bucketAdd_low comp b it h]
      dsimp only
      rw [ih _ h2]
      simp [List.filter_cons, h, List.append_assoc]

/-- The outer loop, when every priority is valid, extends the buckets by
the filtered tagged flattening of the analyses. -/
theorem bucketAnalyses_ok (analyses : List BAnalysis) :
    ∀ b, analyses.all (fun a => a.action_items.all validPriorityB) = true →
      bucketAnalyses b analyses = .ok
        { high := b.high ++ (taggedFlatten analyses).filter
            (fun t => effPriority t.item == "high"),
          medium := b.medium ++ (taggedFlatten analyses).filter
            (fun t => effPriority t.item == "medium"),
          low := b.low ++ (taggedFlatten analyses).filter
            (fun t => effPriority t.item == "low") } := by
  induction analyses with
  | nil => intro b _; simp [bucketAnalyses, taggedFlatten]
  | cons a rest ih =>
    intro b hall
    simp only [List.all_cons, Bool.and_eq_true] at hall
    obtain ⟨h1, h2⟩ := hall
    rw [bucketAnalyses, bucketItems_ok a.competitor a.action_items b h1]
    dsimp only
    rw [ih _ h2]
    simp only [taggedFlatten, List.flatMap_cons, List.filter_append,
      List.append_assoc]
    rw [tagged_filter a.competitor (fun it => effPriority it == "high")
        a.action_items,
      tagged_filter a.competitor (fun it => effPriority it == "medium")
        a.action_items,
      tagged_filter a.competitor (fun it => effPriority it == "low")
        a.action_items]

/-- An analysis carrying one action item with the unrecognized priority
"urgent". -/
def urgentAnalysis : BAnalysis :=
  { competitor := "Acme", threat_level := none, opportunity_level := none,
    overall_impact := none, executive_summary := none, key_findings := [],
    threats := [], opportunities := [], strategic_recommendations := [],
    action_items := [⟨some "urgent", "a", "d", "t"⟩],
    market_implications := [], analyzed_at := none }

/-- An analysis carrying one high-priority item and one item without a
priority field. -/
def mixedAnalysis : BAnalysis :=
  { competitor := "Acme", threat_level := none, opportunity_level := none,
    overall_impact := none, executive_summary := none, key_findings := [],
    threats := [], opportunities := [], strategic_recommendations := [],
    action_items := [⟨some "high", "a1", "d1", "t1"⟩, ⟨none, "a2", "d2", "t2"⟩],
    market_implications := [], analyzed_at := none }

/-- C10: whenever every present priority field is high, medium or low,
`get_action_items_by_priority` succeeds and each bucket holds exactly the
flattened action items of that effective priority (items without a
priority going to the low bucket), each tagged with the competitor of its
originating analysis and kept in input order; and on an analysis carrying
an action item with priority "urgent" the operation raises a KeyError. -/
theorem action_items_bucketing (analyses : List BAnalysis)
    (h : analyses.all (fun a => a.action_items.all validPriorityB) = true) :
    get_action_items_by_priority analyses = .ok
      { high := (taggedFlatten analyses).filter
          (fun t => effPriority t.item == "high"),
        medium := (taggedFlatten analyses).filter
          (fun t => effPriority t.item == "medium"),
        low := (taggedFlatten analyses).filter
          (fun t => effPriority t.item == "low") } ∧
    get_action_items_by_priority [urgentAnalysis] = .error "urgent" := by
  constructor
  · have hok := bucketAnalyses_ok analyses ⟨[], [], []⟩ h
    simpa [get_action_items_by_priority] using hok
  · rfl

/-- C10 (witness): the bucketing applied to one analysis with a
high-priority item and a priority-less item. -/
theorem action_items_bucketing_witness :
    get_action_items_by_priority [mixedAnalysis] = .ok
      { high := (taggedFlatten [mixedAnalysis]).filter
          (fun t => effPriority t.item == "high"),
        medium := (taggedFlatten [mixedAnalysis]).filter
          (fun t => effPriority t.item == "medium"),
        low := (taggedFlatten [mixedAnalysis]).filter
          (fun t => effPriority t.item == "low") } ∧
    get_action_items_by_priority [urgentAnalysis] = .error "urgent" :=
  action_items_bucketing [mixedAnalysis] (by decide)

end CompetitorResearcher
